import Mathlib

/-!
Shallow embedding of the `sign-document-contract` Solana/Anchor program
(`programs/sign-document-contract/src/{state,lib,instructions,config}.rs`).

Principals (`Pubkey`) are modelled as natural numbers, with `0` standing for
`Pubkey::default()` (the all-zero sentinel).  Byte strings (`String` fields,
whose Rust `len()` counts bytes) and 32-byte hashes are modelled as lists of
naturals.  Fallible handlers return `Except FormApprovalError _`; since the
Rust methods mutate state only after all checks have passed, returning the
old state unchanged on error is a faithful embedding of the error paths.
The Anchor account constraints of each instruction context
(`instructions.rs`) run before the handler body, so they appear as the first
checks of each embedded instruction function.
-/

/-- Principal identifier; `0` models `Pubkey::default()`. -/
abbrev Pubkey := Nat

/-- Byte strings (Rust `String` contents / `[u8; 32]` hashes) as lists of bytes. -/
abbrev Bytes := List Nat

/-- Error codes of the contract (`config.rs`, `FormApprovalError`). -/
inductive FormApprovalError where
  | FormIdTooLong
  | MetadataTooLong
  | FormAlreadyApproved
  | UnauthorizedAdmin
  | AdminAlreadyExists
  | AdminNotFound
  | MaxAdminsReached
  | InvalidFormHash
  | CannotRemoveLastAdmin
deriving DecidableEq, Repr

/-- Configuration constants (`config.rs`, `Config`). -/
def Config.MAX_FORM_ID_LENGTH : Nat := 64

/-- Maximum metadata byte length (`config.rs`). -/
def Config.MAX_METADATA_LENGTH : Nat := 256

/-- Maximum number of admins (`config.rs`). -/
def Config.MAX_ADMINS : Nat := 10

/-- Admin registry account (`state.rs`, `AdminConfig`): the fixed
`[Pubkey; 10]` array is a list of length 10. -/
structure AdminConfig where
  admins : List Pubkey
  admin_count : Nat
  authority : Pubkey
  bump : Nat
deriving DecidableEq, Repr

/-- Approval record account (`state.rs`, `FormApproval`). -/
structure FormApproval where
  form_id : Bytes
  form_hash : Bytes
  signer : Pubkey
  approved_at : Int
  metadata : Bytes
  bump : Nat
deriving DecidableEq, Repr

/-- Space computation for a `FormApproval` account (`state.rs`,
`FormApproval::space`). -/
def FormApproval.space (form_id_len metadata_len : Nat) : Nat :=
  8 + (4 + form_id_len) + 32 + 32 + 8 + (4 + metadata_len) + 1

/-- Space the `SignFormSubmission` context allocates for the new record
(`instructions.rs`: `space = FormApproval::space(form_id.len(), 0)`). -/
def signFormSubmissionSpace (form_id : Bytes) : Nat :=
  FormApproval.space form_id.length 0

/-- Linear scan membership test (`state.rs`, `AdminConfig::is_admin`):
loops `i` over `0..admin_count` comparing `admins[i]` with the key. -/
def AdminConfig.is_admin (cfg : AdminConfig) (pubkey : Pubkey) : Bool :=
  (List.range cfg.admin_count).any (fun i => cfg.admins.getD i 0 == pubkey)

/-- Admin insertion (`state.rs`, `AdminConfig::add_admin`). -/
def AdminConfig.add_admin (cfg : AdminConfig) (admin : Pubkey) :
    Except FormApprovalError AdminConfig :=
  if cfg.is_admin admin then
    .error .AdminAlreadyExists
  else if Config.MAX_ADMINS ≤ cfg.admin_count then
    .error .MaxAdminsReached
  else
    .ok { cfg with
          admins := cfg.admins.set cfg.admin_count admin,
          admin_count := cfg.admin_count + 1 }

/-- Admin removal by swap-remove (`state.rs`, `AdminConfig::remove_admin`):
count guard, first-match scan, move last entry into the hole when the hole
is not last, clear the old last slot, decrement the count. -/
def AdminConfig.remove_admin (cfg : AdminConfig) (admin : Pubkey) :
    Except FormApprovalError AdminConfig :=
  if cfg.admin_count ≤ 1 then
    .error .CannotRemoveLastAdmin
  else
    match (List.range cfg.admin_count).find?
        (fun i => cfg.admins.getD i 0 == admin) with
    | none => .error .AdminNotFound
    | some index =>
      .ok { cfg with
            admins :=
              (if index < cfg.admin_count - 1 then
                cfg.admins.set index (cfg.admins.getD (cfg.admin_count - 1) 0)
              else cfg.admins).set (cfg.admin_count - 1) 0,
            admin_count := cfg.admin_count - 1 }

/-- Registry bootstrap (`lib.rs`, `initialize_admin_config`): all slots are
cleared to the sentinel, slot 0 gets the authority, count is 1. -/
def initialize_admin_config (authority : Pubkey) (bump : Nat) : AdminConfig :=
  { admins := (List.replicate 10 (0 : Pubkey)).set 0 authority,
    admin_count := 1,
    authority := authority,
    bump := bump }

/-- The `add_admin` instruction (`lib.rs` handler plus the `AddAdmin`
account constraint `admin_config.authority == authority.key()` of
`instructions.rs`). -/
def add_admin_ix (cfg : AdminConfig) (caller new_admin : Pubkey) :
    Except FormApprovalError AdminConfig :=
  if cfg.authority = caller then cfg.add_admin new_admin
  else .error .UnauthorizedAdmin

/-- The `remove_admin` instruction (`lib.rs` handler plus the `RemoveAdmin`
account constraint `admin_config.authority == authority.key()`). -/
def remove_admin_ix (cfg : AdminConfig) (caller admin_to_remove : Pubkey) :
    Except FormApprovalError AdminConfig :=
  if cfg.authority = caller then cfg.remove_admin admin_to_remove
  else .error .UnauthorizedAdmin

/-- Transaction-level view of `add_admin_ix`: a failed instruction leaves
the registry account exactly as it was. -/
def apply_add_admin (cfg : AdminConfig) (caller new_admin : Pubkey) :
    AdminConfig :=
  match add_admin_ix cfg caller new_admin with
  | .ok cfg2 => cfg2
  | .error _ => cfg

/-- Transaction-level view of `remove_admin_ix`. -/
def apply_remove_admin (cfg : AdminConfig) (caller admin_to_remove : Pubkey) :
    AdminConfig :=
  match remove_admin_ix cfg caller admin_to_remove with
  | .ok cfg2 => cfg2
  | .error _ => cfg

/-- Length check on the optional metadata argument of
`sign_form_submission` (`lib.rs`): only a supplied metadata is checked. -/
def metadataTooLong : Option Bytes → Bool
  | some m => Config.MAX_METADATA_LENGTH < m.length
  | none => false

/-- The `sign_form_submission` instruction (`lib.rs`): the
`SignFormSubmission` context first checks `admin_config.is_admin(admin)`,
then the handler validates the form id length, the optional metadata
length and that the hash is not all-zero, and initializes the record.
`now` is the runtime clock value and `bump` the derived bump seed. -/
def sign_form_submission (cfg : AdminConfig) (admin : Pubkey)
    (form_id : Bytes) (form_hash : Bytes) (metadata : Option Bytes)
    (now : Int) (bump : Nat) : Except FormApprovalError FormApproval :=
  if ¬ cfg.is_admin admin then
    .error .UnauthorizedAdmin
  else if Config.MAX_FORM_ID_LENGTH < form_id.length then
    .error .FormIdTooLong
  else if metadataTooLong metadata then
    .error .MetadataTooLong
  else if form_hash = List.replicate 32 0 then
    .error .InvalidFormHash
  else
    .ok { form_id := form_id,
          form_hash := form_hash,
          signer := admin,
          approved_at := now,
          metadata := metadata.getD [],
          bump := bump }

/-- The `update_form_approval` instruction (`lib.rs`): the
`UpdateFormApproval` context checks `form_approval.signer == admin.key()`
AND `admin_config.is_admin(admin)` (both yielding `UnauthorizedAdmin`),
then the handler validates the metadata length and overwrites only the
metadata field. -/
def update_form_approval (cfg : AdminConfig) (record : FormApproval)
    (caller : Pubkey) (metadata : Bytes) :
    Except FormApprovalError FormApproval :=
  if ¬ record.signer = caller then
    .error .UnauthorizedAdmin
  else if ¬ cfg.is_admin caller then
    .error .UnauthorizedAdmin
  else if Config.MAX_METADATA_LENGTH < metadata.length then
    .error .MetadataTooLong
  else
    .ok { record with metadata := metadata }

/-- The read-only `get_form_approval_details` instruction (`lib.rs`):
total projection of the record. -/
def get_form_approval_details (record : FormApproval) :
    Bytes × Bytes × Pubkey × Int × Bytes :=
  (record.form_id, record.form_hash, record.signer, record.approved_at,
   record.metadata)

/-- Sample three-admin registry (authority `3`; admins `3`, `5`, `8`)
used by concrete witnesses. -/
def sampleRegistry3 : AdminConfig :=
  { admins := [3, 5, 8, 0, 0, 0, 0, 0, 0, 0], admin_count := 3,
    authority := 3, bump := 0 }

/-- Sample approval record signed by admin `5`, used by concrete
witnesses. -/
def sampleRecord5 : FormApproval :=
  { form_id := [7], form_hash := List.replicate 32 1, signer := 5,
    approved_at := 0, metadata := [], bump := 0 }

/-- Registry states reachable from a bootstrap by successful `add_admin` /
`remove_admin` instructions (a failing instruction leaves the state
unchanged, so the reachable set is closed under failures as well). -/
inductive Reachable : AdminConfig → Prop where
  | init (authority : Pubkey) (bump : Nat) :
      Reachable (initialize_admin_config authority bump)
  | add (cfg cfg2 : AdminConfig) (caller a : Pubkey) :
      Reachable cfg → add_admin_ix cfg caller a = .ok cfg2 → Reachable cfg2
  | remove (cfg cfg2 : AdminConfig) (caller a : Pubkey) :
      Reachable cfg → remove_admin_ix cfg caller a = .ok cfg2 → Reachable cfg2

/-- Registry invariant: physical array length 10, logical count between 1
and 10, and no principal occurs twice among the live slots. -/
def RegistryInv (cfg : AdminConfig) : Prop :=
  cfg.admins.length = 10 ∧ 1 ≤ cfg.admin_count ∧
  cfg.admin_count ≤ Config.MAX_ADMINS ∧
  ∀ i j, i < j → j < cfg.admin_count →
    cfg.admins.getD i 0 ≠ cfg.admins.getD j 0

/-- Setting one slot leaves every other slot's `getD` value unchanged. -/
theorem getD_set_of_ne {α : Type} (l : List α) (i j : Nat) (a d : α)
    (h : i ≠ j) : (l.set i a).getD j d = l.getD j d := by
  simp [List.getD_eq_getElem?_getD, List.getElem?_set_ne h]

/-- Setting a slot in range makes its `getD` value the written element. -/
theorem getD_set_self {α : Type} (l : List α) (i : Nat) (a d : α)
    (h : i < l.length) : (l.set i a).getD i d = a := by
  simp [List.getD_eq_getElem?_getD, List.getElem?_set_self h]

/-- Characterization of the `is_admin` scan: true exactly when some live
slot holds the key. -/
theorem is_admin_iff (cfg : AdminConfig) (pk : Pubkey) :
    cfg.is_admin pk = true ↔
      ∃ i, i < cfg.admin_count ∧ cfg.admins.getD i 0 = pk := by
  simp [AdminConfig.is_admin, List.any_eq_true, List.mem_range]

/-- Characterization of a failing `is_admin` scan. -/
theorem is_admin_false_iff (cfg : AdminConfig) (pk : Pubkey) :
    cfg.is_admin pk = false ↔
      ∀ i, i < cfg.admin_count → cfg.admins.getD i 0 ≠ pk := by
  rw [← Bool.not_eq_true, is_admin_iff]
  push_neg
  rfl

/-- The `find?` scan over `range c` returns the first index satisfying the
predicate. -/
theorem find?_range_first (p : Nat → Bool) (c i : Nat) (hi : i < c)
    (hp : p i = true) (hmin : ∀ j, j < i → p j = false) :
    (List.range c).find? p = some i := by
  induction c with
  | zero => omega
  | succ n ih =>
    rw [List.range_succ, List.find?_append]
    rcases Nat.lt_or_ge i n with h | h
    · rw [ih h]
      rfl
    · have hin : i = n := by omega
      subst hin
      have hnone : (List.range i).find? p = none := by
        rw [List.find?_eq_none]
        intro x hx
        simp [hmin x (List.mem_range.mp hx)]
      rw [hnone]
      simp [List.find?, hp]

/-- A successful `add_admin` preserves the registry invariant. -/
theorem add_admin_ok_inv {cfg cfg2 : AdminConfig} {a : Pubkey}
    (hinv : RegistryInv cfg) (h : cfg.add_admin a = .ok cfg2) :
    RegistryInv cfg2 := by
  obtain ⟨hlen, hc1, hc10, hnd⟩ := hinv
  unfold AdminConfig.add_admin at h
  split_ifs at h with hadm hmax
  simp only [Except.ok.injEq] at h
  subst h
  simp only [Config.MAX_ADMINS] at hmax hc10
  refine ⟨by simp [List.length_set, hlen], by simp, ?_, ?_⟩
  · simp only [Config.MAX_ADMINS]
    omega
  · intro i j hij hj
    simp only at hj ⊢
    rcases Nat.lt_or_ge j cfg.admin_count with hjc | hjc
    · rw [getD_set_of_ne cfg.admins cfg.admin_count i a 0 (by omega),
          getD_set_of_ne cfg.admins cfg.admin_count j a 0 (by omega)]
      exact hnd i j hij hjc
    · have hjeq : j = cfg.admin_count := by omega
      subst hjeq
      rw [getD_set_of_ne cfg.admins cfg.admin_count i a 0 (by omega),
          getD_set_self cfg.admins cfg.admin_count a 0 (by omega)]
      exact (is_admin_false_iff cfg a).mp (Bool.eq_false_iff.mpr hadm) i
        (by omega)

/-- A successful `remove_admin` preserves the registry invariant. -/
theorem remove_admin_ok_inv {cfg cfg2 : AdminConfig} {a : Pubkey}
    (hinv : RegistryInv cfg) (h : cfg.remove_admin a = .ok cfg2) :
    RegistryInv cfg2 := by
  obtain ⟨hlen, hc1, hc10, hnd⟩ := hinv
  unfold AdminConfig.remove_admin at h
  split_ifs at h with hle
  split at h
  · simp at h
  · next index hfind =>
    simp only [Except.ok.injEq] at h
    subst h
    have hidx : index < cfg.admin_count :=
      List.mem_range.mp (List.mem_of_find?_eq_some hfind)
    simp only [Config.MAX_ADMINS] at hc10
    refine ⟨?_, by simp; omega, ?_, ?_⟩
    · simp only [List.length_set]
      split <;> simp [List.length_set, hlen]
    · simp only [Config.MAX_ADMINS]
      omega
    · intro i j hij hj
      simp only at hj ⊢
      have hj2 : j < cfg.admin_count - 1 := hj
      have hi2 : i < cfg.admin_count - 1 := by omega
      rw [getD_set_of_ne _ (cfg.admin_count - 1) i 0 0 (by omega),
          getD_set_of_ne _ (cfg.admin_count - 1) j 0 0 (by omega)]
      by_cases hcase : index < cfg.admin_count - 1
      · rw [if_pos hcase]
        by_cases hi_idx : i = index
        · subst hi_idx
          rw [getD_set_self cfg.admins i _ 0 (by omega)]
          rw [getD_set_of_ne cfg.admins i j _ 0 (by omega)]
          exact fun heq =>
            hnd j (cfg.admin_count - 1) hj2 (by omega) heq.symm
        · rw [getD_set_of_ne cfg.admins index i _ 0 (fun he => hi_idx he.symm)]
          by_cases hj_idx : j = index
          · subst hj_idx
            rw [getD_set_self cfg.admins j _ 0 (by omega)]
            exact hnd i (cfg.admin_count - 1) (by omega) (by omega)
          · rw [getD_set_of_ne cfg.admins index j _ 0
                (fun he => hj_idx he.symm)]
            exact hnd i j hij (by omega)
      · rw [if_neg hcase]
        exact hnd i j hij (by omega)

/-- Every reachable registry state satisfies the full invariant. -/
theorem reachable_inv {cfg : AdminConfig} (h : Reachable cfg) :
    RegistryInv cfg := by
  induction h with
  | init authority bump =>
    refine ⟨by simp [initialize_admin_config, List.length_set], ?_, ?_, ?_⟩
    · simp [initialize_admin_config]
    · simp [initialize_admin_config, Config.MAX_ADMINS]
    · intro i j hij hj
      simp only [initialize_admin_config] at hj
      omega
  | add cfg cfg2 caller a hr hok ih =>
    unfold add_admin_ix at hok
    split_ifs at hok with hauth
    exact add_admin_ok_inv ih hok
  | remove cfg cfg2 caller a hr hok ih =>
    unfold remove_admin_ix at hok
    split_ifs at hok with hauth
    exact remove_admin_ok_inv ih hok

/-- Claim C3: for every state of the admin registry reachable from
bootstrap by any sequence of `add_admin` / `remove_admin` instructions
(failing calls leave the state unchanged), the admin count stays between 1
and 10 and no principal appears twice among the live slots
`admins[0..admin_count)`. -/
theorem reachable_count_bounds_and_no_dup (cfg : AdminConfig)
    (h : Reachable cfg) :
    1 ≤ cfg.admin_count ∧ cfg.admin_count ≤ 10 ∧
    ∀ i j, i < j → j < cfg.admin_count →
      cfg.admins.getD i 0 ≠ cfg.admins.getD j 0 := by
  obtain ⟨-, h1, h2, h3⟩ := reachable_inv h
  exact ⟨h1, by simpa [Config.MAX_ADMINS] using h2, h3⟩

/-- Witness for the reachability invariant at a concrete bootstrap state. -/
theorem reachable_count_bounds_and_no_dup_witness :
    1 ≤ (initialize_admin_config 7 255).admin_count ∧
    (initialize_admin_config 7 255).admin_count ≤ 10 ∧
    ∀ i j, i < j → j < (initialize_admin_config 7 255).admin_count →
      (initialize_admin_config 7 255).admins.getD i 0 ≠
        (initialize_admin_config 7 255).admins.getD j 0 :=
  reachable_count_bounds_and_no_dup _ (Reachable.init 7 255)

/-- Claim C6: with `admin_count == 1`, `remove_admin` invoked by the
authority fails with `CannotRemoveLastAdmin` for every target, member or
not — the count guard runs before the membership scan — and the registry
is unchanged. -/
theorem remove_admin_last_admin_guard (cfg : AdminConfig) (target : Pubkey)
    (h1 : cfg.admin_count = 1) :
    remove_admin_ix cfg cfg.authority target =
      .error .CannotRemoveLastAdmin ∧
    apply_remove_admin cfg cfg.authority target = cfg := by
  have herr : remove_admin_ix cfg cfg.authority target =
      .error .CannotRemoveLastAdmin := by
    unfold remove_admin_ix AdminConfig.remove_admin
    rw [if_pos rfl, if_pos (by omega)]
  refine ⟨herr, ?_⟩
  unfold apply_remove_admin
  rw [herr]

/-- Witness for the last-admin guard: a fresh registry has count 1 and the
chosen target `9` is not even an admin there. -/
theorem remove_admin_last_admin_guard_witness :
    remove_admin_ix (initialize_admin_config 3 0)
        (initialize_admin_config 3 0).authority 9 =
      .error .CannotRemoveLastAdmin ∧
    apply_remove_admin (initialize_admin_config 3 0)
        (initialize_admin_config 3 0).authority 9 =
      initialize_admin_config 3 0 :=
  remove_admin_last_admin_guard (initialize_admin_config 3 0) 9 rfl

/-- Claim C8: any caller other than the authority gets `UnauthorizedAdmin`
from both `add_admin` and `remove_admin`, with the registry unchanged; and
in general every failing registry instruction is a no-op on the state. -/
theorem unauthorized_registry_mutation_noop (cfg : AdminConfig)
    (caller arg : Pubkey) (h : caller ≠ cfg.authority) :
    add_admin_ix cfg caller arg = .error .UnauthorizedAdmin ∧
    remove_admin_ix cfg caller arg = .error .UnauthorizedAdmin ∧
    apply_add_admin cfg caller arg = cfg ∧
    apply_remove_admin cfg caller arg = cfg ∧
    (∀ cfg3 c3 a3 e, add_admin_ix cfg3 c3 a3 = .error e →
      apply_add_admin cfg3 c3 a3 = cfg3) ∧
    (∀ cfg3 c3 a3 e, remove_admin_ix cfg3 c3 a3 = .error e →
      apply_remove_admin cfg3 c3 a3 = cfg3) := by
  have hne : ¬ cfg.authority = caller := fun he => h he.symm
  have ha : add_admin_ix cfg caller arg = .error .UnauthorizedAdmin := by
    unfold add_admin_ix
    rw [if_neg hne]
  have hr : remove_admin_ix cfg caller arg = .error .UnauthorizedAdmin := by
    unfold remove_admin_ix
    rw [if_neg hne]
  refine ⟨ha, hr, ?_, ?_, ?_, ?_⟩
  · unfold apply_add_admin
    rw [ha]
  · unfold apply_remove_admin
    rw [hr]
  · intro cfg3 c3 a3 e he
    unfold apply_add_admin
    rw [he]
  · intro cfg3 c3 a3 e he
    unfold apply_remove_admin
    rw [he]

/-- Witness for the unauthorized-caller no-op at a concrete registry. -/
theorem unauthorized_registry_mutation_noop_witness :
    add_admin_ix (initialize_admin_config 3 0) 4 8 =
      .error .UnauthorizedAdmin ∧
    remove_admin_ix (initialize_admin_config 3 0) 4 8 =
      .error .UnauthorizedAdmin ∧
    apply_add_admin (initialize_admin_config 3 0) 4 8 =
      initialize_admin_config 3 0 ∧
    apply_remove_admin (initialize_admin_config 3 0) 4 8 =
      initialize_admin_config 3 0 ∧
    (∀ cfg3 c3 a3 e, add_admin_ix cfg3 c3 a3 = .error e →
      apply_add_admin cfg3 c3 a3 = cfg3) ∧
    (∀ cfg3 c3 a3 e, remove_admin_ix cfg3 c3 a3 = .error e →
      apply_remove_admin cfg3 c3 a3 = cfg3) :=
  unauthorized_registry_mutation_noop (initialize_admin_config 3 0) 4 8
    (by decide)

/-- Claim C7: `add_admin` by the authority fails with `AdminAlreadyExists`
whenever the key is already a live admin (this check preceding the
capacity check), otherwise fails with `MaxAdminsReached` at capacity 10,
and otherwise writes the new admin into slot `admin_count`, increments the
count, and leaves every other slot unchanged. -/
theorem add_admin_checks_and_effect (cfg : AdminConfig) (new_admin : Pubkey)
    (hlen : cfg.admins.length = 10) :
    (cfg.is_admin new_admin = true →
      add_admin_ix cfg cfg.authority new_admin =
        .error .AdminAlreadyExists) ∧
    (cfg.is_admin new_admin = false → cfg.admin_count = 10 →
      add_admin_ix cfg cfg.authority new_admin =
        .error .MaxAdminsReached) ∧
    (cfg.is_admin new_admin = false → cfg.admin_count < 10 →
      ∃ cfg2, add_admin_ix cfg cfg.authority new_admin = .ok cfg2 ∧
        cfg2.admins.getD cfg.admin_count 0 = new_admin ∧
        cfg2.admin_count = cfg.admin_count + 1 ∧
        cfg2.authority = cfg.authority ∧
        ∀ j, j ≠ cfg.admin_count →
          cfg2.admins.getD j 0 = cfg.admins.getD j 0) := by
  refine ⟨?_, ?_, ?_⟩
  · intro hadm
    unfold add_admin_ix AdminConfig.add_admin
    rw [if_pos rfl, if_pos hadm]
  · intro hadm hfull
    unfold add_admin_ix AdminConfig.add_admin
    rw [if_pos rfl, if_neg (by simp [hadm]), if_pos (by
      simp [Config.MAX_ADMINS, hfull])]
  · intro hadm hlt
    refine ⟨{ cfg with
        admins := cfg.admins.set cfg.admin_count new_admin,
        admin_count := cfg.admin_count + 1 }, ?_, ?_, rfl, rfl, ?_⟩
    · unfold add_admin_ix AdminConfig.add_admin
      rw [if_pos rfl, if_neg (by simp [hadm]), if_neg (by
        simp [Config.MAX_ADMINS]
        omega)]
    · exact getD_set_self cfg.admins cfg.admin_count new_admin 0 (by omega)
    · intro j hj
      exact getD_set_of_ne cfg.admins cfg.admin_count j new_admin 0
        (fun he => hj he.symm)

/-- Witness for the `add_admin` characterization: a two-admin registry
exercises the duplicate branch, a full registry the capacity branch, and
the success branch appends at the logical end. -/
theorem add_admin_checks_and_effect_witness :
    ((initialize_admin_config 3 0).is_admin 3 = true →
      add_admin_ix (initialize_admin_config 3 0)
          (initialize_admin_config 3 0).authority 3 =
        .error .AdminAlreadyExists) ∧
    ((initialize_admin_config 3 0).is_admin 3 = false →
      (initialize_admin_config 3 0).admin_count = 10 →
      add_admin_ix (initialize_admin_config 3 0)
          (initialize_admin_config 3 0).authority 3 =
        .error .MaxAdminsReached) ∧
    ((initialize_admin_config 3 0).is_admin 3 = false →
      (initialize_admin_config 3 0).admin_count < 10 →
      ∃ cfg2, add_admin_ix (initialize_admin_config 3 0)
          (initialize_admin_config 3 0).authority 3 = .ok cfg2 ∧
        cfg2.admins.getD (initialize_admin_config 3 0).admin_count 0 = 3 ∧
        cfg2.admin_count = (initialize_admin_config 3 0).admin_count + 1 ∧
        cfg2.authority = (initialize_admin_config 3 0).authority ∧
        ∀ j, j ≠ (initialize_admin_config 3 0).admin_count →
          cfg2.admins.getD j 0 =
            (initialize_admin_config 3 0).admins.getD j 0) :=
  add_admin_checks_and_effect (initialize_admin_config 3 0) 3 (by decide)

/-- Claim C10: `add_admin` never rejects the all-zero sentinel key: when
`Pubkey::default()` is not currently a live admin and there is capacity,
the authority can add it, after which `is_admin` returns true for the
sentinel and the freshly occupied slot holds the same value as a cleared
slot. -/
theorem add_admin_accepts_sentinel (cfg : AdminConfig)
    (h0 : cfg.is_admin 0 = false) (hcnt : cfg.admin_count < 10)
    (hlen : cfg.admins.length = 10) :
    ∃ cfg2, add_admin_ix cfg cfg.authority 0 = .ok cfg2 ∧
      cfg2.is_admin 0 = true ∧
      cfg2.admins.getD cfg.admin_count 0 = 0 := by
  refine ⟨{ cfg with
      admins := cfg.admins.set cfg.admin_count 0,
      admin_count := cfg.admin_count + 1 }, ?_, ?_, ?_⟩
  · unfold add_admin_ix AdminConfig.add_admin
    rw [if_pos rfl, if_neg (by simp [h0]), if_neg (by
      simp [Config.MAX_ADMINS]
      omega)]
  · rw [is_admin_iff]
    refine ⟨cfg.admin_count, ?_, ?_⟩
    · show cfg.admin_count < cfg.admin_count + 1
      omega
    · show (cfg.admins.set cfg.admin_count 0).getD cfg.admin_count 0 = 0
      exact getD_set_self cfg.admins cfg.admin_count 0 0 (by omega)
  · exact getD_set_self cfg.admins cfg.admin_count 0 0 (by omega)

/-- Witness for the sentinel insertion at a fresh registry. -/
theorem add_admin_accepts_sentinel_witness :
    ∃ cfg2, add_admin_ix (initialize_admin_config 3 0)
        (initialize_admin_config 3 0).authority 0 = .ok cfg2 ∧
      cfg2.is_admin 0 = true ∧
      cfg2.admins.getD (initialize_admin_config 3 0).admin_count 0 = 0 :=
  add_admin_accepts_sentinel (initialize_admin_config 3 0) (by decide)
    (by decide) (by decide)

/-- Claim C5: a successful removal of `target`, sitting at first logical
index `i` in a registry with at least two admins, swap-removes: when `i`
is not the last logical index, the former last entry moves into slot `i`;
the old last slot is cleared to the sentinel; the count drops by exactly
one; every other live slot is untouched. -/
theorem remove_admin_swap_remove (cfg : AdminConfig) (target : Pubkey)
    (i : Nat) (hlen : cfg.admins.length = 10) (hc2 : 2 ≤ cfg.admin_count)
    (hcle : cfg.admin_count ≤ 10) (hi : i < cfg.admin_count)
    (hit : cfg.admins.getD i 0 = target)
    (hfirst : ∀ j, j < i → cfg.admins.getD j 0 ≠ target) :
    ∃ cfg2, remove_admin_ix cfg cfg.authority target = .ok cfg2 ∧
      cfg2.admin_count = cfg.admin_count - 1 ∧
      (i < cfg.admin_count - 1 →
        cfg2.admins.getD i 0 = cfg.admins.getD (cfg.admin_count - 1) 0) ∧
      cfg2.admins.getD (cfg.admin_count - 1) 0 = 0 ∧
      (∀ j, j < cfg.admin_count - 1 → j ≠ i →
        cfg2.admins.getD j 0 = cfg.admins.getD j 0) := by
  have hfind : (List.range cfg.admin_count).find?
      (fun j => cfg.admins.getD j 0 == target) = some i := by
    refine find?_range_first _ _ i hi ?_ ?_
    · exact beq_iff_eq.mpr hit
    · intro j hj
      exact beq_eq_false_iff_ne.mpr (hfirst j hj)
  refine ⟨{ cfg with
      admins :=
        (if i < cfg.admin_count - 1 then
          cfg.admins.set i (cfg.admins.getD (cfg.admin_count - 1) 0)
        else cfg.admins).set (cfg.admin_count - 1) 0,
      admin_count := cfg.admin_count - 1 }, ?_, rfl, ?_, ?_, ?_⟩
  · unfold remove_admin_ix AdminConfig.remove_admin
    rw [if_pos rfl, if_neg (by omega), hfind]
  · intro hilast
    show ((if i < cfg.admin_count - 1 then
        cfg.admins.set i (cfg.admins.getD (cfg.admin_count - 1) 0)
      else cfg.admins).set (cfg.admin_count - 1) 0).getD i 0 =
      cfg.admins.getD (cfg.admin_count - 1) 0
    rw [getD_set_of_ne _ (cfg.admin_count - 1) i 0 0 (by omega),
        if_pos hilast,
        getD_set_self cfg.admins i (cfg.admins.getD (cfg.admin_count - 1) 0)
          0 (by omega)]
  · show ((if i < cfg.admin_count - 1 then
        cfg.admins.set i (cfg.admins.getD (cfg.admin_count - 1) 0)
      else cfg.admins).set (cfg.admin_count - 1) 0).getD
        (cfg.admin_count - 1) 0 = 0
    refine getD_set_self _ (cfg.admin_count - 1) 0 0 ?_
    split <;> simp [List.length_set, hlen] <;> omega
  · intro j hj hji
    show ((if i < cfg.admin_count - 1 then
        cfg.admins.set i (cfg.admins.getD (cfg.admin_count - 1) 0)
      else cfg.admins).set (cfg.admin_count - 1) 0).getD j 0 =
      cfg.admins.getD j 0
    rw [getD_set_of_ne _ (cfg.admin_count - 1) j 0 0 (by omega)]
    split
    · exact getD_set_of_ne cfg.admins i j _ 0 (fun he => hji he.symm)
    · rfl

/-- Witness for the swap-remove: the sample three-admin registry removing
its middle admin `5` (at index 1) relocates `8` into slot 1. -/
theorem remove_admin_swap_remove_witness :
    ∃ cfg2, remove_admin_ix sampleRegistry3 sampleRegistry3.authority 5 =
        .ok cfg2 ∧
      cfg2.admin_count = sampleRegistry3.admin_count - 1 ∧
      (1 < sampleRegistry3.admin_count - 1 →
        cfg2.admins.getD 1 0 =
          sampleRegistry3.admins.getD (sampleRegistry3.admin_count - 1) 0) ∧
      cfg2.admins.getD (sampleRegistry3.admin_count - 1) 0 = 0 ∧
      (∀ j, j < sampleRegistry3.admin_count - 1 → j ≠ 1 →
        cfg2.admins.getD j 0 = sampleRegistry3.admins.getD j 0) :=
  remove_admin_swap_remove sampleRegistry3 5 1 (by decide) (by decide)
    (by decide) (by decide) (by decide) (by decide)

/-- Claim C4: after a successful `sign_form_submission` by an admin with a
valid form id, non-zero hash and admissible optional metadata, the
read-only `get_form_approval_details` projection returns exactly the
signed tuple, with absent metadata read back as the empty string. -/
theorem sign_then_get_details_roundtrip (cfg : AdminConfig)
    (caller : Pubkey) (form_id form_hash : Bytes) (m : Option Bytes)
    (t : Int) (b : Nat) (hadm : cfg.is_admin caller = true)
    (hfid : form_id.length ≤ 64) (hm : metadataTooLong m = false)
    (_hh32 : form_hash.length = 32)
    (hh : form_hash ≠ List.replicate 32 0) :
    ∃ rec, sign_form_submission cfg caller form_id form_hash m t b =
        .ok rec ∧
      get_form_approval_details rec =
        (form_id, form_hash, caller, t, m.getD []) := by
  refine ⟨{
      form_id := form_id, form_hash := form_hash, signer := caller,
      approved_at := t, metadata := m.getD [], bump := b }, ?_, rfl⟩
  unfold sign_form_submission
  rw [if_neg (by simp [hadm]),
      if_neg (by simp only [Config.MAX_FORM_ID_LENGTH]; omega),
      if_neg (by simp [hm]), if_neg hh]

/-- Witness for the sign/get round-trip on the sample registry, both with
and without supplied metadata exercised through the same concrete call. -/
theorem sign_then_get_details_roundtrip_witness :
    ∃ rec, sign_form_submission sampleRegistry3 5 [70, 49]
        (List.replicate 32 2) (some [110]) 42 7 = .ok rec ∧
      get_form_approval_details rec =
        ([70, 49], List.replicate 32 2, 5, 42, (some [110]).getD []) :=
  sign_then_get_details_roundtrip sampleRegistry3 5 [70, 49]
    (List.replicate 32 2) (some [110]) 42 7 (by decide) (by decide)
    (by decide) (by decide) (by decide)

/-- Claim C2: the `SignFormSubmission` context allocates
`FormApproval::space(form_id.len(), 0)` = `8+4+len+32+32+8+4+0+1` bytes,
reserving zero bytes for metadata, while the handler still accepts and
stores any metadata of length up to 256; every accepted non-empty
metadata therefore needs more space than was budgeted at allocation. -/
theorem sign_allocation_reserves_no_metadata_space (form_id m : Bytes)
    (h1 : 1 ≤ m.length) (h2 : m.length ≤ 256) :
    signFormSubmissionSpace form_id =
      8 + 4 + form_id.length + 32 + 32 + 8 + 4 + 0 + 1 ∧
    FormApproval.space form_id.length m.length =
      signFormSubmissionSpace form_id + m.length ∧
    signFormSubmissionSpace form_id <
      FormApproval.space form_id.length m.length ∧
    (∀ cfg caller h t b, AdminConfig.is_admin cfg caller = true →
      form_id.length ≤ 64 → h ≠ List.replicate 32 0 →
      ∃ rec, sign_form_submission cfg caller form_id h (some m) t b =
          .ok rec ∧ rec.metadata = m) := by
  refine ⟨?_, ?_, ?_, ?_⟩
  · unfold signFormSubmissionSpace FormApproval.space
    omega
  · unfold signFormSubmissionSpace FormApproval.space
    omega
  · unfold signFormSubmissionSpace FormApproval.space
    omega
  · intro cfg caller h t b hadm hfid hh
    refine ⟨{
        form_id := form_id, form_hash := h, signer := caller,
        approved_at := t, metadata := m, bump := b }, ?_, rfl⟩
    unfold sign_form_submission
    rw [if_neg (by simp [hadm]),
        if_neg (by simp only [Config.MAX_FORM_ID_LENGTH]; omega),
        if_neg (by
          simp only [metadataTooLong, Config.MAX_METADATA_LENGTH,
            decide_eq_true_eq]
          omega),
        if_neg hh]
    rfl

/-- Witness for the allocation/metadata mismatch at a concrete form id and
a concrete three-byte metadata. -/
theorem sign_allocation_reserves_no_metadata_space_witness :
    signFormSubmissionSpace [70] =
      8 + 4 + ([70] : Bytes).length + 32 + 32 + 8 + 4 + 0 + 1 ∧
    FormApproval.space ([70] : Bytes).length ([1, 2, 3] : Bytes).length =
      signFormSubmissionSpace [70] + ([1, 2, 3] : Bytes).length ∧
    signFormSubmissionSpace [70] <
      FormApproval.space ([70] : Bytes).length ([1, 2, 3] : Bytes).length ∧
    (∀ cfg caller h t b, AdminConfig.is_admin cfg caller = true →
      ([70] : Bytes).length ≤ 64 → h ≠ List.replicate 32 0 →
      ∃ rec, sign_form_submission cfg caller [70] h (some [1, 2, 3]) t b =
          .ok rec ∧ rec.metadata = [1, 2, 3]) :=
  sign_allocation_reserves_no_metadata_space [70] [1, 2, 3] (by decide)
    (by decide)

/-- Claim C9 counterexample: `sign_form_submission` accepts an empty form
id — the handler only checks `len(form_id) <= 64`, with no lower bound —
so a record with a zero-length form id is created. -/
theorem sign_empty_form_id_counterexample :
    sign_form_submission (initialize_admin_config 3 0) 3 []
        (List.replicate 32 1) none 0 0 =
      .ok { form_id := [], form_hash := List.replicate 32 1, signer := 3,
            approved_at := 0, metadata := [], bump := 0 } ∧
    ([] : Bytes).length = 0 := by
  constructor
  · rfl
  · rfl

/-- Claim C9 (amended): every record created by `sign_form_submission`
carries the submitted form id, whose length is at most 64 bytes; the
handler enforces no positive lower bound, so zero-length form ids are
accepted rather than rejected. -/
theorem sign_form_id_length_at_most_64 (cfg : AdminConfig)
    (caller : Pubkey) (form_id form_hash : Bytes) (m : Option Bytes)
    (t : Int) (b : Nat) (rec : FormApproval)
    (h : sign_form_submission cfg caller form_id form_hash m t b =
      .ok rec) :
    rec.form_id = form_id ∧ rec.form_id.length ≤ 64 := by
  unfold sign_form_submission at h
  split_ifs at h with hadm hfid hmeta hhash
  simp only [Except.ok.injEq] at h
  subst h
  refine ⟨rfl, ?_⟩
  simp only [Config.MAX_FORM_ID_LENGTH] at hfid
  show form_id.length ≤ 64
  omega

/-- Witness for the amended form-id bound, at the empty-form-id input the
code accepts. -/
theorem sign_form_id_length_at_most_64_witness :
    ({ form_id := [], form_hash := List.replicate 32 1, signer := 3,
       approved_at := 0, metadata := [], bump := 0 } :
      FormApproval).form_id = ([] : Bytes) ∧
    ({ form_id := [], form_hash := List.replicate 32 1, signer := 3,
       approved_at := 0, metadata := [], bump := 0 } :
      FormApproval).form_id.length ≤ 64 :=
  sign_form_id_length_at_most_64 (initialize_admin_config 3 0) 3 []
    (List.replicate 32 1) none 0 0
    { form_id := [], form_hash := List.replicate 32 1, signer := 3,
      approved_at := 0, metadata := [], bump := 0 } rfl

/-- Claim C1 counterexample: a caller who IS the record's signer but is
not a current admin fails with `UnauthorizedAdmin` — the
`UpdateFormApproval` context also requires `admin_config.is_admin`, so a
removed admin cannot update their own prior records. -/
theorem update_by_non_member_signer_counterexample :
    update_form_approval (initialize_admin_config 3 0)
        { form_id := [7], form_hash := List.replicate 32 1, signer := 9,
          approved_at := 0, metadata := [], bump := 0 } 9 [] =
      .error .UnauthorizedAdmin ∧
    ({ form_id := [7], form_hash := List.replicate 32 1, signer := 9,
       approved_at := 0, metadata := [], bump := 0 } :
      FormApproval).signer = 9 ∧
    ([] : Bytes).length ≤ 256 ∧
    (initialize_admin_config 3 0).is_admin 9 = false := by
  refine ⟨?_, rfl, ?_, ?_⟩
  · rfl
  · decide
  · decide

/-- Claim C1 (amended): `update_form_approval` with an admissible
metadata succeeds iff the caller is the record's signer AND is currently
in the admin registry; whenever either condition fails the call errors
with `UnauthorizedAdmin`, so a removed admin can no longer update the
records they previously signed. -/
theorem update_form_approval_requires_signer_and_membership
    (cfg : AdminConfig) (record : FormApproval) (caller : Pubkey)
    (m : Bytes) (hm : m.length ≤ 256) :
    (update_form_approval cfg record caller m =
        .ok { record with metadata := m } ↔
      (record.signer = caller ∧ cfg.is_admin caller = true)) ∧
    (¬(record.signer = caller ∧ cfg.is_admin caller = true) →
      update_form_approval cfg record caller m =
        .error .UnauthorizedAdmin) := by
  constructor
  · constructor
    · intro h
      unfold update_form_approval at h
      split_ifs at h with hs ha hlen
      exact ⟨hs, ha⟩
    · rintro ⟨hs, ha⟩
      unfold update_form_approval
      rw [if_neg (not_not_intro hs), if_neg (not_not_intro ha),
          if_neg (by
            simp only [Config.MAX_METADATA_LENGTH]
            omega)]
  · intro hno
    unfold update_form_approval
    by_cases hs : record.signer = caller
    · have ha : ¬ cfg.is_admin caller = true := fun ha => hno ⟨hs, ha⟩
      rw [if_neg (not_not_intro hs), if_pos ha]
    · rw [if_pos hs]

/-- Witness for the amended update authorization: admin `5` of the sample
registry updating the record it signed. -/
theorem update_form_approval_requires_signer_and_membership_witness :
    (update_form_approval sampleRegistry3 sampleRecord5 5 [9] =
        .ok { sampleRecord5 with metadata := [9] } ↔
      (sampleRecord5.signer = 5 ∧ sampleRegistry3.is_admin 5 = true)) ∧
    (¬(sampleRecord5.signer = 5 ∧ sampleRegistry3.is_admin 5 = true) →
      update_form_approval sampleRegistry3 sampleRecord5 5 [9] =
        .error .UnauthorizedAdmin) :=
  update_form_approval_requires_signer_and_membership sampleRegistry3
    sampleRecord5 5 [9] (by decide)
